import Mathlib

/-!
Verification of the batch multi-model assessment pipeline of
`xlwings_lite_scripts/main_v2.py` (question quality assessment system).

The Python source is shallowly embedded: pure fragments become Lean
functions over `List`/`Option`/`Except`, Python `dict`s become association
lists with last-write-wins insertion, Excel/network effects are abstracted
as explicit inputs (per-batch, per-model responses are an oracle argument),
and Python strings are handled through their character lists so that every
definition evaluates inside the kernel.
-/

namespace QQ

/-! ## Python string helpers

`str.strip`, `str.split(',')`, `str.startswith`, substring membership and
`str.split('/')[-1]` are embedded on `List Char` (the data of a `String`),
mirroring CPython semantics for the whitespace set actually exercised. -/

/-- Whitespace characters removed by Python `str.strip()`. -/
def is_space_char (c : Char) : Bool :=
  c = ' ' || c = '\t' || c = '\n' || c = '\r' || c = '\x0b' || c = '\x0c'

/-- Python `str.strip()` on the character list. -/
def py_strip_list (l : List Char) : List Char :=
  ((l.dropWhile is_space_char).reverse.dropWhile is_space_char).reverse

/-- Python `str.strip()`. -/
def py_strip (s : String) : String :=
  String.mk (py_strip_list s.toList)

/-- Python `s.split(',')`. -/
def py_split_comma (s : String) : List String :=
  (s.toList.splitOn ',').map String.mk

/-- Python `s.startswith(p)`. -/
def py_startswith (s p : String) : Bool :=
  p.toList.isPrefixOf s.toList

/-- Does `pat` occur as a contiguous sublist of `l`? (Python `pat in s`.) -/
def has_sublist (pat : List Char) : List Char → Bool
  | [] => pat.isEmpty
  | c :: rest => pat.isPrefixOf (c :: rest) || has_sublist pat rest

/-- Python `'pro' in model_name.lower()` (source line 413). -/
def contains_pro (model_name : String) : Bool :=
  has_sublist "pro".toList (model_name.toList.map Char.toLower)

/-- Source `get_short_model_name` (lines 124-127): the final `/`-separated
component of the model string, or the string itself when it has no slash. -/
def get_short_model_name (full_model_string : String) : String :=
  match (full_model_string.toList.splitOn '/').getLast? with
  | some l => String.mk l
  | none => full_model_string

/-! ## Model slots and configuration

`MODEL_CONFIG` has three fixed slots `model_1`/`model_2`/`model_3`; each is
bound in `load_config` to a model string and a 0/1 enabled tag, plus the
sampling and thinking parameters read from the MASTER sheet. -/

/-- The three logical model slots of `MODEL_CONFIG`. -/
inductive ModelKey where
  | model_1
  | model_2
  | model_3
deriving DecidableEq, Repr

/-- The slot order used by every `for model_key in ['model_1','model_2','model_3']` loop. -/
def modelKeys : List ModelKey := [.model_1, .model_2, .model_3]

/-- The run configuration assembled by `load_config` (lines 192-299), restricted
to the fields the pipeline reads.  A blank Gemini budget cell is `none`; the
OpenAI effort cell is stored stripped and lowercased (line 227), `""` when blank. -/
structure Config where
  model_1 : String
  model_2 : String
  model_3 : String
  model_1_tag : Nat
  model_2_tag : Nat
  model_3_tag : Nat
  temperature : ℚ
  top_p : ℚ
  max_tokens : Nat
  batch_size : Nat
  request_delay_seconds : ℚ
  thinking_budget_gemini : Option Int
  reasoning_effort_openai : String

/-- `config[model_key]`: the model string bound to a slot. -/
def Config.model (cfg : Config) : ModelKey → String
  | .model_1 => cfg.model_1
  | .model_2 => cfg.model_2
  | .model_3 => cfg.model_3

/-- `config[f'{model_key}_tag']`: the slot's enabled tag. -/
def Config.tag (cfg : Config) : ModelKey → Nat
  | .model_1 => cfg.model_1_tag
  | .model_2 => cfg.model_2_tag
  | .model_3 => cfg.model_3_tag

/-- The enabled slots in configured order: every per-model loop in the source
iterates the three slots and skips those whose tag is not 1. -/
def enabled_model_keys (cfg : Config) : List ModelKey :=
  modelKeys.filter (fun mk => cfg.tag mk = 1)

/-! ## Batch partitioning (Batch Orchestrator)

`assess_questions` (lines 1250-1257) computes
`total_batches = (len + batch_size - 1) // batch_size` and takes the slices
`df.iloc[i*batch_size : i*batch_size + batch_size]` for `i` in range. -/

/-- `total_batches = (len(df_to_process) + batch_size - 1) // batch_size` (line 1251). -/
def total_batches (len bs : Nat) : Nat := (len + bs - 1) / bs

/-- Batch `i`: the slice `items[i*bs : i*bs + bs]` (lines 1255-1257); Python
slicing clamps at the end of the list, which `drop`/`take` also do. -/
def batch_slice (items : List α) (bs i : Nat) : List α :=
  (items.drop (i * bs)).take bs

/-- All batches of a run, in processing order. -/
def run_batches (items : List α) (bs : Nat) : List (List α) :=
  (List.range (total_batches items.length bs)).map (batch_slice items bs)

theorem total_batches_zero (bs : Nat) (h : 0 < bs) : total_batches 0 bs = 0 := by
  simp only [total_batches, Nat.zero_add]
  exact Nat.div_eq_of_lt (by omega)

theorem total_batches_succ (len bs : Nat) (hbs : 0 < bs) (hlen : 0 < len) :
    total_batches len bs = total_batches (len - bs) bs + 1 := by
  unfold total_batches
  rcases Nat.lt_or_ge bs len with h | h
  · have h1 : len + bs - 1 = (len - 1) + bs := by omega
    have h2 : len - bs + bs - 1 = (len - bs - 1) + bs := by omega
    have h3 : len - 1 = (len - bs - 1) + bs := by omega
    rw [h1, Nat.add_div_right _ hbs, h2, Nat.add_div_right _ hbs, h3,
      Nat.add_div_right _ hbs]
  · have h1 : len + bs - 1 = (len - 1) + bs := by omega
    rw [h1, Nat.add_div_right _ hbs, Nat.div_eq_of_lt (by omega),
      Nat.sub_eq_zero_of_le h, Nat.zero_add, Nat.div_eq_of_lt (by omega)]

theorem run_batches_nil (bs : Nat) (h : 0 < bs) : run_batches ([] : List α) bs = [] := by
  simp [run_batches, total_batches_zero bs h]

theorem run_batches_cons (items : List α) (bs : Nat) (hbs : 0 < bs)
    (hne : items ≠ []) :
    run_batches items bs = items.take bs :: run_batches (items.drop bs) bs := by
  have hlen : 0 < items.length := List.length_pos.mpr hne
  unfold run_batches
  rw [total_batches_succ items.length bs hbs hlen, List.range_succ_eq_map,
    List.map_cons, List.map_map, List.length_drop]
  congr 1
  · simp [batch_slice]
  · apply List.map_congr_left
    intro i _
    show batch_slice items bs (i + 1) = batch_slice (items.drop bs) bs i
    unfold batch_slice
    rw [List.drop_drop]
    congr 1
    ring_nf

theorem flatten_run_batches_aux (bs : Nat) (hbs : 0 < bs) :
    ∀ n (items : List α), items.length = n → (run_batches items bs).flatten = items := by
  intro n
  induction n using Nat.strong_induction_on with
  | _ n ih =>
    intro items hn
    cases items with
    | nil => rw [run_batches_nil bs hbs]; rfl
    | cons a l =>
      have hlt : ((a :: l).drop bs).length < n := by
        rw [List.length_drop, hn]
        rw [List.length_cons] at hn
        omega
      rw [run_batches_cons (a :: l) bs hbs (by simp), List.flatten_cons,
        ih _ hlt _ rfl, List.take_append_drop]

theorem flatten_run_batches (items : List α) (bs : Nat) (hbs : 0 < bs) :
    (run_batches items bs).flatten = items :=
  flatten_run_batches_aux bs hbs items.length items rfl

theorem length_run_batches (items : List α) (bs : Nat) :
    (run_batches items bs).length = total_batches items.length bs := by
  simp [run_batches]

theorem sizes_sum_run_batches (items : List α) (bs : Nat) (hbs : 0 < bs) :
    ((run_batches items bs).map List.length).sum = items.length := by
  rw [← List.length_flatten, flatten_run_batches items bs hbs]

theorem batch_full_of_not_last (items : List α) (bs : Nat) (hbs : 0 < bs)
    (i : Nat) (h : i + 1 < (run_batches items bs).length) :
    ((run_batches items bs).get ⟨i, by omega⟩).length = bs := by
  have hget : (run_batches items bs).get ⟨i, by omega⟩ = batch_slice items bs i := by
    simp [run_batches]
  rw [hget]
  unfold batch_slice
  rw [List.length_take, List.length_drop]
  rw [length_run_batches] at h
  unfold total_batches at h
  have h2 : i + 2 ≤ (items.length + bs - 1) / bs := by omega
  have h3 : (i + 2) * bs ≤ items.length + bs - 1 :=
    (Nat.le_div_iff_mul_le hbs).mp h2
  have h4 : i * bs + bs ≤ items.length := by
    have := h3
    rw [Nat.add_mul] at this
    omega
  omega

theorem batch_size_le (items : List α) (bs : Nat) :
    ∀ b ∈ run_batches items bs, b.length ≤ bs := by
  intro b hb
  simp only [run_batches, List.mem_map] at hb
  obtain ⟨i, _, rfl⟩ := hb
  unfold batch_slice
  exact List.length_take_le bs _

/-- C2: For every valid item range of length L and every configured batch size
B > 0, `assess_questions` produces exactly ceil(L / B) batches (the source's
`(L + B - 1) // B`, pinned to the ceiling by the two inequalities), the batch
sizes sum to L, their concatenation is the original range in order (hence no
gaps and no overlaps), every non-last batch has size exactly B, and every
batch has size at most B (so only the last may be smaller). -/
theorem assess_questions_batches_partition (items : List Nat) (bs : Nat) (hbs : 0 < bs) :
    (run_batches items bs).length = (items.length + bs - 1) / bs
    ∧ items.length ≤ (run_batches items bs).length * bs
    ∧ (run_batches items bs).length * bs < items.length + bs
    ∧ ((run_batches items bs).map List.length).sum = items.length
    ∧ (run_batches items bs).flatten = items
    ∧ (∀ i (h : i + 1 < (run_batches items bs).length),
        ((run_batches items bs).get ⟨i, by omega⟩).length = bs)
    ∧ (∀ b ∈ run_batches items bs, b.length ≤ bs) := by
  have hlen := length_run_batches items bs
  have hdm := Nat.div_add_mod (items.length + bs - 1) bs
  have hmod : (items.length + bs - 1) % bs < bs := Nat.mod_lt _ hbs
  refine ⟨hlen, ?_, ?_, sizes_sum_run_batches items bs hbs,
    flatten_run_batches items bs hbs,
    fun i h => batch_full_of_not_last items bs hbs i h,
    batch_size_le items bs⟩
  · rw [hlen]
    unfold total_batches
    rcases Nat.eq_zero_or_pos items.length with h0 | h0
    · simp [h0, Nat.div_eq_of_lt (show bs - 1 < bs by omega)]
    · have := hdm
      generalize hq : (items.length + bs - 1) / bs = q at *
      generalize hr : (items.length + bs - 1) % bs = r at *
      have : bs * q = items.length + bs - 1 - r := by omega
      rw [Nat.mul_comm q bs]
      omega
  · rw [hlen]
    unfold total_batches
    generalize hq : (items.length + bs - 1) / bs = q at *
    generalize hr : (items.length + bs - 1) % bs = r at *
    have : bs * q = items.length + bs - 1 - r := by omega
    rw [Nat.mul_comm q bs]
    omega

/-! ## Deserialized response objects (Response Parser)

The string-level front end of the parsers (code-fence stripping, first-`[` /
last-`]` array extraction, `json.loads`) can fail only before an array of
objects exists; those failure modes are carried by `ModelResponse.bad_content`
below.  From `json.loads` onward the parsers work on deserialized values,
embedded here structurally: a response object has an optional `questionid`,
an optional `change_required` value and an optional feedback map from field
name to either an {issue, rewrite} entry or a non-dict value. -/

/-- An {issue, rewrite} feedback entry; a missing key reads back as `""`
through Python's `.get(key, '')`. -/
structure FeedbackEntry where
  issue : Option String
  rewrite : Option String
deriving DecidableEq, Repr

/-- A value of the feedback map: a proper entry dict, or some non-dict JSON
value (the `else` branch of lines 612-614). -/
inductive FbVal where
  | fb_dict (entry : FeedbackEntry)
  | not_dict
deriving DecidableEq, Repr

/-- One deserialized object of an LLM response array. -/
structure RespObj where
  questionid : Option Nat
  change_required : Option Int
  feedback : Option (List (String × FbVal))
deriving DecidableEq, Repr

/-- Python dict assignment `m[k] = v` on an association list: replaces the
binding when the key is present, appends otherwise (insertion order kept). -/
def dict_insert (m : List (Nat × RespObj)) (k : Nat) (v : RespObj) : List (Nat × RespObj) :=
  if m.any (fun p => p.1 == k) then m.map (fun p => if p.1 = k then (k, v) else p)
  else m ++ [(k, v)]

/-- Python `m.get(k)` on an association list. -/
def dict_get (m : List (Nat × RespObj)) (k : Nat) : Option RespObj :=
  (m.find? (fun p => p.1 == k)).map (fun p => p.2)

/-- Feedback-map lookup `feedback.get(key)`. -/
def fb_get (fb : List (String × FbVal)) (k : String) : Option FbVal :=
  (fb.find? (fun p => p.1 == k)).map (fun p => p.2)

/-- The normalization loop body of `parse_llm_response` (lines 608-614): an
entry whose issue and rewrite both strip to empty gets issue
`"No changes needed."` (rewrite untouched); a non-dict value is replaced by
`{"issue": "Invalid feedback format.", "rewrite": ""}`. -/
def normalize_feedback_entry : String × FbVal → String × FbVal
  | (k, .fb_dict e) =>
      if py_strip (e.issue.getD "") = "" ∧ py_strip (e.rewrite.getD "") = "" then
        (k, .fb_dict { e with issue := some "No changes needed." })
      else (k, .fb_dict e)
  | (k, .not_dict) =>
      (k, .fb_dict { issue := some "Invalid feedback format.", rewrite := some "" })

/-- Structural part of `parse_llm_response` (lines 546-622), the SINGLE-item
parser: requires `change_required` and `feedback` keys, `change_required`
strictly in {0,1}, a `question` entry in the feedback map; on success returns
the object with its feedback normalized, otherwise `None`. -/
def parse_llm_response (parsed : RespObj) : Option RespObj :=
  match parsed.change_required, parsed.feedback with
  | some cr, some fb =>
      if cr = 0 ∨ cr = 1 then
        if fb.any (fun p => p.1 == "question") then
          some { parsed with feedback := some (fb.map normalize_feedback_entry) }
        else none
      else none
  | _, _ => none

/-- The `results_map` built by `parse_llm_batch_response` (lines 706-711):
objects are keyed by their `questionid`, objects without one are skipped,
a repeated id overwrites the earlier binding. -/
def results_map_of (parsed_array : List RespObj) : List (Nat × RespObj) :=
  parsed_array.foldl
    (fun m obj =>
      match obj.questionid with
      | some q => dict_insert m q obj
      | none => m)
    []

/-- Structural part of `parse_llm_batch_response` (lines 668-724), the
BATCH parser: given the deserialized array it only builds the id-keyed map and
returns it with a `None` error; the identifier-set mismatch against the batch
is merely logged (lines 713-717).  Note the body performs no per-object shape
validation and no feedback normalization. -/
def parse_llm_batch_response (parsed_array : List RespObj) :
    List (Nat × RespObj) × Option String :=
  (results_map_of parsed_array, none)

/-! ## Per-batch, per-model assessment (`assess_question_batch`, lines 727-843) -/

/-- Abstract outcome of one `call_openrouter_api` + content deserialization for
one (batch, model) pair: a gateway error, content on which the string-level
parse fails, or content deserializing to an array of objects. -/
inductive ModelResponse where
  | api_error (msg : String)
  | bad_content (msg : String)
  | content (parsed_array : List RespObj)

/-- A per-(item, model) verdict stored in `batch_results[qid][model_key]`:
either a parsed object (its dict has `'error': None`) or an error verdict
(`'error'` set to a message). -/
inductive Verdict where
  | parsed (obj : RespObj)
  | error_verdict (msg : String)
deriving DecidableEq, Repr

/-- The `'error'` field of the stored verdict dict. -/
def Verdict.errorMsg : Verdict → Option String
  | .parsed _ => none
  | .error_verdict m => some m

/-- Verdict assignments made for one model over one batch (lines 820-842):
on a gateway error every item of the batch gets that error; on a parse error
every item gets the parse error; otherwise each item gets its parsed object
from the results map, or the explicit missing-response error verdict. -/
def model_verdicts (batch_ids : List Nat) (mk : ModelKey) (resp : ModelResponse) :
    List (Nat × ModelKey × Verdict) :=
  match resp with
  | .api_error e => batch_ids.map (fun q => (q, mk, .error_verdict e))
  | .bad_content e =>
      batch_ids.map (fun q => (q, mk, .error_verdict ("Failed to parse LLM batch response: " ++ e)))
  | .content arr =>
      batch_ids.map (fun q =>
        match dict_get (parse_llm_batch_response arr).1 q with
        | some obj => (q, mk, Verdict.parsed obj)
        | none => (q, mk, Verdict.error_verdict "Response missing for this questionid"))

/-- `assess_question_batch`: the per-model loop over the three slots, skipping
disabled ones, concatenating every verdict assignment it performs. -/
def assess_question_batch (batch_ids : List Nat) (cfg : Config)
    (resp : ModelKey → ModelResponse) : List (Nat × ModelKey × Verdict) :=
  (enabled_model_keys cfg).flatMap (fun mk => model_verdicts batch_ids mk (resp mk))

/-- The whole run's verdict assignments (`assess_questions` step 6, lines
1254-1267): every batch in order, each assessed with `assess_question_batch`;
`resp i mk` is the abstract outcome for batch `i` and slot `mk`. -/
def run_assess (items : List Nat) (cfg : Config)
    (resp : Nat → ModelKey → ModelResponse) : List (Nat × ModelKey × Verdict) :=
  (List.range (total_batches items.length cfg.batch_size)).flatMap
    (fun i => assess_question_batch (batch_slice items cfg.batch_size i) cfg (resp i))

theorem countP_model_verdicts (b : List Nat) (mk mk' : ModelKey) (r : ModelResponse) (q : Nat) :
    (model_verdicts b mk' r).countP (fun e => e.1 == q && e.2.1 == mk) =
      if mk' = mk then b.count q else 0 := by
  have hmap : ∀ (f : Nat → ModelKey × Verdict), (∀ x, (f x).1 = mk') →
      ∀ l : List Nat, (l.map (fun x => ((x, f x) : Nat × ModelKey × Verdict))).countP
        (fun e => e.1 == q && e.2.1 == mk) = if mk' = mk then l.count q else 0 := by
    intro f hf l
    rw [List.countP_map]
    by_cases hmm : mk' = mk
    · subst hmm
      rw [if_pos rfl, List.count]
      apply List.countP_congr
      intro x _
      simp [Function.comp, hf x]
    · rw [if_neg hmm]
      rw [List.countP_eq_zero]
      intro x _
      simp only [Function.comp, hf x, Bool.and_eq_true, beq_iff_eq]
      rintro ⟨-, h⟩
      exact hmm h
  cases r with
  | api_error e => exact hmap (fun _ => (mk', .error_verdict e)) (fun _ => rfl) b
  | bad_content e =>
      exact hmap (fun _ => (mk', .error_verdict ("Failed to parse LLM batch response: " ++ e)))
        (fun _ => rfl) b
  | content arr =>
      have hrw : model_verdicts b mk' (.content arr) =
          b.map (fun x =>
            ((x, match dict_get (parse_llm_batch_response arr).1 x with
                 | some obj => (mk', Verdict.parsed obj)
                 | none => (mk', Verdict.error_verdict "Response missing for this questionid")) :
              Nat × ModelKey × Verdict)) := by
        apply List.map_congr_left
        intro x _
        cases dict_get (parse_llm_batch_response arr).1 x <;> rfl
      rw [hrw]
      refine hmap _ ?_ b
      intro x
      cases dict_get (parse_llm_batch_response arr).1 x <;> rfl

theorem sum_map_ite_eq_of_nodup (l : List ModelKey) (mk : ModelKey) (c : Nat)
    (hnd : l.Nodup) (hmem : mk ∈ l) :
    (l.map (fun mk' => if mk' = mk then c else 0)).sum = c := by
  induction l with
  | nil => cases hmem
  | cons a t ih =>
    rw [List.map_cons, List.sum_cons, List.nodup_cons] at *
    rcases List.mem_cons.mp hmem with heq | hmem'
    · rw [if_pos heq.symm]
      have hz : (t.map (fun mk' => if mk' = mk then c else 0)).sum = 0 := by
        apply List.sum_eq_zero
        intro x hx
        obtain ⟨y, hy, rfl⟩ := List.mem_map.mp hx
        refine if_neg (fun h => hnd.1 ?_)
        rw [← heq]
        exact h ▸ hy
      rw [hz, Nat.add_zero]
    · have hne : a ≠ mk := by
        intro h
        apply hnd.1
        rw [h]
        exact hmem'
      rw [if_neg hne, ih hnd.2 hmem', Nat.zero_add]

theorem nodup_enabled_model_keys (cfg : Config) : (enabled_model_keys cfg).Nodup :=
  List.Nodup.filter _ (by decide)

theorem mem_enabled_model_keys (cfg : Config) (mk : ModelKey) (h : cfg.tag mk = 1) :
    mk ∈ enabled_model_keys cfg := by
  apply List.mem_filter.mpr
  refine ⟨?_, by simp [h]⟩
  cases mk <;> decide

theorem countP_assess_question_batch (b : List Nat) (cfg : Config)
    (resp : ModelKey → ModelResponse) (q : Nat) (mk : ModelKey) (hmk : cfg.tag mk = 1) :
    (assess_question_batch b cfg resp).countP (fun e => e.1 == q && e.2.1 == mk) =
      b.count q := by
  unfold assess_question_batch
  rw [List.countP_flatMap]
  have hcongr : (enabled_model_keys cfg).map
        ((fun l => List.countP (fun e => e.1 == q && e.2.1 == mk) l) ∘
          fun mk' => model_verdicts b mk' (resp mk')) =
      (enabled_model_keys cfg).map (fun mk' => if mk' = mk then b.count q else 0) := by
    apply List.map_congr_left
    intro mk' _
    exact countP_model_verdicts b mk mk' (resp mk') q
  rw [hcongr, sum_map_ite_eq_of_nodup _ mk _ (nodup_enabled_model_keys cfg)
    (mem_enabled_model_keys cfg mk hmk)]

/-- C1: in every run over a requested item range (with distinct identifiers and
a positive batch size), every requested item receives exactly one verdict per
enabled model slot — a parsed verdict, a per-item error verdict or the explicit
missing-response verdict — never zero and never more than one, whatever the
per-batch model responses were. -/
theorem run_assess_exactly_one_verdict (items : List Nat) (cfg : Config)
    (resp : Nat → ModelKey → ModelResponse) (q : Nat) (mk : ModelKey)
    (hbs : 0 < cfg.batch_size) (hnd : items.Nodup) (hq : q ∈ items)
    (hmk : cfg.tag mk = 1) :
    (run_assess items cfg resp).countP (fun e => e.1 == q && e.2.1 == mk) = 1 := by
  unfold run_assess
  rw [List.countP_flatMap]
  have hcongr : (List.range (total_batches items.length cfg.batch_size)).map
        ((fun l => List.countP (fun e => e.1 == q && e.2.1 == mk) l) ∘
          fun i => assess_question_batch (batch_slice items cfg.batch_size i) cfg (resp i)) =
      (List.range (total_batches items.length cfg.batch_size)).map
        (fun i => (batch_slice items cfg.batch_size i).count q) := by
    apply List.map_congr_left
    intro i _
    exact countP_assess_question_batch _ cfg (resp i) q mk hmk
  rw [hcongr]
  have hflat : (List.range (total_batches items.length cfg.batch_size)).map
        (fun i => (batch_slice items cfg.batch_size i).count q) =
      (run_batches items cfg.batch_size).map (List.count q) := by
    rw [run_batches, List.map_map]
    rfl
  rw [hflat, ← List.count_flatten, flatten_run_batches items cfg.batch_size hbs]
  exact List.count_eq_one_of_mem hnd hq

/-! ## Shape validation and normalization (C5, C6) -/

theorem mem_dict_insert (m : List (Nat × RespObj)) (k : Nat) (v : RespObj)
    (p : Nat × RespObj) (hp : p ∈ dict_insert m k v) : p = (k, v) ∨ p ∈ m := by
  unfold dict_insert at hp
  split at hp
  · obtain ⟨q, hq, hqe⟩ := List.mem_map.mp hp
    by_cases hqk : q.1 = k
    · left
      rw [if_pos hqk] at hqe
      exact hqe.symm
    · right
      rw [if_neg hqk] at hqe
      exact hqe ▸ hq
  · rcases List.mem_append.mp hp with h | h
    · right
      exact h
    · left
      simpa using h

theorem results_map_fold_mem (arr0 : List RespObj) :
    ∀ (l : List RespObj) (acc : List (Nat × RespObj)),
      (∀ p ∈ acc, p.2 ∈ arr0) → (∀ o ∈ l, o ∈ arr0) →
      ∀ p ∈ l.foldl
        (fun m obj =>
          match obj.questionid with
          | some q => dict_insert m q obj
          | none => m) acc, p.2 ∈ arr0 := by
  intro l
  induction l with
  | nil =>
      intro acc hacc _
      simpa using hacc
  | cons o t ih =>
      intro acc hacc hl p hp
      rw [List.foldl_cons] at hp
      refine ih _ ?_ (fun o' ho' => hl o' (List.mem_cons_of_mem o ho')) p hp
      intro p' hp'
      cases ho : o.questionid with
      | none =>
          rw [ho] at hp'
          exact hacc p' hp'
      | some q =>
          rw [ho] at hp'
          rcases mem_dict_insert acc q o p' hp' with rfl | hmem
          · exact hl o (List.mem_cons_self o t)
          · exact hacc p' hmem

theorem mem_results_map_of (arr : List RespObj) (p : Nat × RespObj)
    (hp : p ∈ results_map_of arr) : p.2 ∈ arr :=
  results_map_fold_mem arr arr [] (fun p' hp' => absurd hp' (List.not_mem_nil p'))
    (fun _ ho => ho) p hp

theorem dict_get_mem (m : List (Nat × RespObj)) (k : Nat) (obj : RespObj)
    (h : dict_get m k = some obj) : ∃ q, (q, obj) ∈ m := by
  unfold dict_get at h
  cases hf : m.find? (fun p => p.1 == k) with
  | none => rw [hf] at h; cases h
  | some p =>
      rw [hf] at h
      have hpm : p ∈ m := List.mem_of_find?_eq_some hf
      have hob : p.2 = obj := by simpa using h
      exact ⟨p.1, hob ▸ (show (p.1, p.2) ∈ m from hpm)⟩

/-- Every object returned by the batch parser's results map is an object of
the deserialized input array, verbatim. -/
theorem dict_get_results_map_mem (arr : List RespObj) (q : Nat) (obj : RespObj)
    (h : dict_get (results_map_of arr) q = some obj) : obj ∈ arr := by
  obtain ⟨k, hk⟩ := dict_get_mem _ _ _ h
  exact mem_results_map_of arr (k, obj) hk

/-- C5 (amended): the BATCH parser performs no per-object shape validation —
it never reports a structural parse failure and returns every keyed object of
the deserialized array verbatim as that item's result, even when the
change-required flag is outside {0,1} or the feedback map lacks the primary
question entry.  Rejection of such objects as a whole-call failure exists only
in the SINGLE-item parser `parse_llm_response`. -/
theorem shape_validation_single_item_only :
    (∀ arr : List RespObj, (parse_llm_batch_response arr).2 = none)
    ∧ (∀ (arr : List RespObj) (q : Nat) (obj : RespObj),
        dict_get (parse_llm_batch_response arr).1 q = some obj → obj ∈ arr)
    ∧ (∀ (obj : RespObj) (cr : Int), obj.change_required = some cr → cr ≠ 0 → cr ≠ 1 →
        parse_llm_response obj = none)
    ∧ (∀ (obj : RespObj) (fb : List (String × FbVal)), obj.feedback = some fb →
        fb.any (fun p => p.1 == "question") = false → parse_llm_response obj = none) := by
  refine ⟨fun _ => rfl, ?_, ?_, ?_⟩
  · intro arr q obj h
    exact dict_get_results_map_mem arr q obj h
  · intro obj cr hcr h0 h1
    cases hfb : obj.feedback with
    | none => simp [parse_llm_response, hcr, hfb]
    | some fb => simp [parse_llm_response, hcr, hfb, h0, h1]
  · intro obj fb hfb hq
    cases hcr : obj.change_required with
    | none => simp [parse_llm_response, hcr, hfb]
    | some cr => simp [parse_llm_response, hcr, hfb, hq]

/-- C5 witness: applying the shape-validation theorem at the invalid object
{questionid: 7, change_required: 2, feedback: {}} and at the empty array. -/
theorem shape_validation_single_item_only_witness :
    parse_llm_response { questionid := some 7, change_required := some 2, feedback := some [] }
      = none
    ∧ (parse_llm_batch_response []).2 = none := by
  refine ⟨?_, shape_validation_single_item_only.1 []⟩
  exact shape_validation_single_item_only.2.2.1 _ 2 rfl (by decide) (by decide)

/-- C5 counterexample: a deserialized batch array containing a single object
with change flag 2 (outside {0,1}) and an empty feedback map (no question
entry) is not rejected: the batch parser reports no error and returns the
invalid object as item 1's result, contradicting the claimed whole-call
parse failure. -/
theorem batch_parser_accepts_invalid_shape_counterexample :
    (parse_llm_batch_response
        [{ questionid := some 1, change_required := some 2, feedback := some [] }]).2 = none
    ∧ (parse_llm_batch_response
        [{ questionid := some 1, change_required := some 2, feedback := some [] }]).1 =
      [(1, { questionid := some 1, change_required := some 2, feedback := some [] })] :=
  ⟨rfl, by decide⟩

/-- The "question" feedback entry with empty issue and empty rewrite. -/
def blank_question_entry : String × FbVal :=
  ("question", FbVal.fb_dict { issue := some "", rewrite := some "" })

/-- The normalized form of `blank_question_entry` produced by the single-item
parser. -/
def normalized_question_entry : String × FbVal :=
  ("question", FbVal.fb_dict { issue := some "No changes needed.", rewrite := some "" })

/-- A response object built from a change flag and a feedback map. -/
def mk_resp_obj (qid : Option Nat) (cr : Int) (fb : List (String × FbVal)) : RespObj :=
  { questionid := qid, change_required := some cr, feedback := some fb }

/-- C6 (amended): the "no changes needed" normalization exists only in the
single-item parser: `parse_llm_response` rewrites a question entry with empty
issue and empty rewrite to issue "No changes needed." and (still empty)
rewrite "", while the batch parser returns response objects verbatim, so in
the batch pipeline such entries stay blank. -/
theorem normalization_single_item_only :
    (∀ (qid : Option Nat) (cr : Int) (rest : List (String × FbVal)), cr = 0 ∨ cr = 1 →
      parse_llm_response (mk_resp_obj qid cr (blank_question_entry :: rest)) =
        some (mk_resp_obj qid cr
          (normalized_question_entry :: rest.map normalize_feedback_entry)))
    ∧ (∀ (arr : List RespObj) (q : Nat) (obj : RespObj),
        dict_get (parse_llm_batch_response arr).1 q = some obj → obj ∈ arr) := by
  constructor
  · intro qid cr rest hcr
    have hps : py_strip "" = "" := rfl
    rcases hcr with rfl | rfl <;>
      simp [parse_llm_response, mk_resp_obj, blank_question_entry, normalized_question_entry,
        normalize_feedback_entry, hps]
  · intro arr q obj h
    exact dict_get_results_map_mem arr q obj h

/-- C6 witness: applying the normalization theorem at a concrete object with
change flag 0 and only the blank question entry. -/
theorem normalization_single_item_only_witness :
    parse_llm_response (mk_resp_obj (some 5) 0 [blank_question_entry]) =
      some (mk_resp_obj (some 5) 0 [normalized_question_entry]) := by
  have h := normalization_single_item_only.1 (some 5) 0 [] (Or.inl rfl)
  simpa using h

/-- C6 counterexample: a batch response object whose question feedback has
empty issue and empty rewrite comes back from the batch parser with the entry
still blank — issue "" rather than the claimed "No changes needed.". -/
theorem batch_response_not_normalized_counterexample :
    dict_get (parse_llm_batch_response [mk_resp_obj (some 1) 0 [blank_question_entry]]).1 1
      = some (mk_resp_obj (some 1) 0 [blank_question_entry])
    ∧ ("" : String) ≠ "No changes needed." :=
  ⟨by decide, by decide⟩

/-! ## Per-batch metrics status (`assess_questions`, lines 1300-1320)

API metrics are logged once per batch per enabled model; the record's `Status`
is `'SUCCESS'` exactly when the verdict stored for the FIRST question of the
batch has `error is None` (line 1312). -/

/-- The verdict stored in `batch_results[q][mk]` for one model over one batch. -/
def verdict_for (batch_ids : List Nat) (q : Nat) (mk : ModelKey) (resp : ModelResponse) :
    Option Verdict :=
  ((model_verdicts batch_ids mk resp).find? (fun e => e.1 == q)).map (fun e => e.2.2)

/-- `Status` of the API_METRICS record for one (batch, model) pair, from the
first question's verdict (lines 1304-1312); `none` when no record is appended
(empty batch or verdict dict missing). -/
def batch_metrics_status (batch_ids : List Nat) (mk : ModelKey) (resp : ModelResponse) :
    Option String :=
  match batch_ids with
  | [] => none
  | q :: _ =>
      match verdict_for batch_ids q mk resp with
      | some v => some (if v.errorMsg = none then "SUCCESS" else "ERROR")
      | none => none

/-- C7: evaluation of the code at the failing input.  For the batch [1, 2, 3]
whose parsed response array contains verdict objects only for identifiers 2
and 3, the reconciler produces exactly 2 parsed verdicts and exactly 1
explicit missing-response error verdict — but the per-batch metrics record
carries ERROR, not the SUCCESS required by the claim, because the `Status`
field is copied from the first item's verdict and item 1 is the missing one. -/
theorem batch_of_three_missing_first_status_error :
    (model_verdicts [1, 2, 3] ModelKey.model_1
        (ModelResponse.content
          [{ questionid := some 2, change_required := some 0, feedback := some [] },
           { questionid := some 3, change_required := some 1, feedback := some [] }])).countP
        (fun e => e.2.2.errorMsg == none) = 2
    ∧ (model_verdicts [1, 2, 3] ModelKey.model_1
        (ModelResponse.content
          [{ questionid := some 2, change_required := some 0, feedback := some [] },
           { questionid := some 3, change_required := some 1, feedback := some [] }])).countP
        (fun e => e.2.2.errorMsg == some "Response missing for this questionid") = 1
    ∧ batch_metrics_status [1, 2, 3] ModelKey.model_1
        (ModelResponse.content
          [{ questionid := some 2, change_required := some 0, feedback := some [] },
           { questionid := some 3, change_required := some 1, feedback := some [] }])
        = some "ERROR" := by
  refine ⟨?_, ?_, ?_⟩ <;> decide

/-! ## Request payload construction (`call_openrouter_api`, lines 389-450)

The payload is assembled and the thinking/reasoning parameters validated
STRICTLY BEFORE the HTTP POST of line 496; the `ValueError`s of lines 441 and
446 are raised during this phase, are caught nowhere below the top-level
handler of `assess_questions` (line 1381), and therefore abort the run. -/

/-- The outbound request payload (lines 389-395 plus the optional
`thinking_budget` / `reasoning_effort` keys). -/
structure Payload where
  model : String
  temperature : ℚ
  top_p : ℚ
  max_tokens : Nat
  thinking_budget : Option Int
  reasoning_effort : Option String
deriving DecidableEq, Repr

/-- Gemini `min_val` (line 414): 128 for a `pro` variant, else 512. -/
def gemini_min_val (model_name : String) : Int :=
  if contains_pro model_name then 128 else 512

/-- Gemini `max_val` (line 415): 32768 for a `pro` variant, else 24576. -/
def gemini_max_val (model_name : String) : Int :=
  if contains_pro model_name then 32768 else 24576

/-- Payload-construction phase of `call_openrouter_api` (lines 389-450).
`thinking_models_lookup` and `thinking_values_lookup` embed the two dicts
read from the T_COST table (`dict.get` is function application to `Option`).
A blank/`None` Gemini budget cell is `none` (lines 406-409 treat both alike);
`int(...)` conversion of a filled cell is the `some` payload.  The Python
truthiness test `if user_effort and user_effort.strip()` (line 435) is
equivalent to the strip being non-empty.  A raised `ValueError` is `.error`. -/
def call_openrouter_api_payload (model_name : String) (cfg : Config)
    (thinking_models_lookup : String → Option Int)
    (thinking_values_lookup : String → Option String) : Except String Payload :=
  let base : Payload :=
    { model := model_name, temperature := cfg.temperature, top_p := cfg.top_p,
      max_tokens := cfg.max_tokens, thinking_budget := none, reasoning_effort := none }
  if thinking_models_lookup model_name = some 1 then
    if py_startswith model_name "google/" then
      let budget0 : Int :=
        match cfg.thinking_budget_gemini with
        | none => 0
        | some v => v
      let budget : Int :=
        if 0 < budget0 then
          if budget0 < gemini_min_val model_name then gemini_min_val model_name
          else if gemini_max_val model_name < budget0 then gemini_max_val model_name
          else budget0
        else budget0
      if budget ≠ 0 then Except.ok { base with thinking_budget := some budget }
      else Except.ok base
    else if py_startswith model_name "openai/" then
      if py_strip cfg.reasoning_effort_openai ≠ "" then
        -- `dict.get` returning `None` and a blank string both fail the source's
        -- truthiness test of line 440, so they are conflated through `getD ""`.
        let valid_efforts_str := (thinking_values_lookup model_name).getD ""
        if py_strip valid_efforts_str = "" then
          Except.error "Model does not support the reasoning_effort parameter, but a value was provided."
        else if cfg.reasoning_effort_openai ∈ (py_split_comma valid_efforts_str).map py_strip then
          Except.ok { base with reasoning_effort := some cfg.reasoning_effort_openai }
        else Except.error ("Invalid reasoning_effort for model " ++ model_name)
      else Except.ok base
    else Except.ok base
  else Except.ok base

/-- Did the payload build succeed (no configuration error)? -/
def payload_ok : Except String Payload → Bool
  | .ok _ => true
  | .error _ => false

/-- The `thinking_budget` key of a successfully built payload. -/
def payload_thinking_budget : Except String Payload → Option (Option Int)
  | .ok p => some p.thinking_budget
  | .error _ => none

/-- The configuration state that triggers the effort-family `ValueError`s
(lines 435-446): an enabled thinking model with `openai/` prefix, a non-blank
configured effort, and a capability-table entry that is absent, blank, or does
not list the configured value. -/
def effort_invalid_for (cfg : Config) (tv : String → Option String) (model_name : String) : Bool :=
  if py_strip ((tv model_name).getD "") = "" then true
  else decide (cfg.reasoning_effort_openai ∉
    (py_split_comma ((tv model_name).getD "")).map py_strip)

/-- A model string that starts with `openai/` cannot also start with `google/`. -/
theorem not_google_of_openai (s : String) (h : py_startswith s "openai/" = true) :
    py_startswith s "google/" = false := by
  unfold py_startswith at *
  cases hl : s.toList with
  | nil => rw [hl] at h; simp [List.isPrefixOf] at h
  | cons c rest =>
      rw [hl] at h
      have hc : c = 'o' := by
        simp only [show "openai/".toList = ['o', 'p', 'e', 'n', 'a', 'i', '/'] from rfl,
          List.isPrefixOf, Bool.and_eq_true, beq_iff_eq] at h
        exact h.1.symm
      subst hc
      simp [show "google/".toList = ['g', 'o', 'o', 'g', 'l', 'e', '/'] from rfl,
        List.isPrefixOf]

theorem payload_error_of_invalid_effort (model_name : String) (cfg : Config)
    (tm : String → Option Int) (tv : String → Option String)
    (hthink : tm model_name = some 1)
    (hopenai : py_startswith model_name "openai/" = true)
    (heffort : py_strip cfg.reasoning_effort_openai ≠ "")
    (hinvalid : effort_invalid_for cfg tv model_name = true) :
    payload_ok (call_openrouter_api_payload model_name cfg tm tv) = false := by
  unfold call_openrouter_api_payload
  rw [if_pos hthink, if_neg (by rw [not_google_of_openai model_name hopenai]; simp),
    if_pos hopenai, if_pos heffort]
  unfold effort_invalid_for at hinvalid
  by_cases hblank : py_strip ((tv model_name).getD "") = ""
  · rw [if_pos hblank]
    rfl
  · rw [if_neg hblank]
    rw [if_neg hblank] at hinvalid
    rw [if_neg (by simpa using hinvalid)]
    rfl

/-- The per-(batch, model) loop as a network-call counter: for each slot in
order, build the payload; a configuration error aborts immediately (the
exception propagates out of `assess_question_batch` and the batch loop to the
top-level handler of `assess_questions`), otherwise the HTTP POST fires and
the count increments. -/
def process_models (cfg : Config) (tm : String → Option Int) (tv : String → Option String) :
    List ModelKey → Nat → Nat × Option String
  | [], n => (n, none)
  | mk :: rest, n =>
      match call_openrouter_api_payload (cfg.model mk) cfg tm tv with
      | .error e => (n, some e)
      | .ok _ => process_models cfg tm tv rest (n + 1)

/-- Network calls performed by a run of `nbatches` batches: batches in order,
enabled slots in order within each batch; second component is the
configuration error that aborted the run, if any. -/
def run_network_calls (cfg : Config) (tm : String → Option Int) (tv : String → Option String)
    (nbatches : Nat) : Nat × Option String :=
  process_models cfg tm tv ((List.range nbatches).flatMap (fun _ => enabled_model_keys cfg)) 0

theorem process_models_ok_prefix (cfg : Config) (tm : String → Option Int)
    (tv : String → Option String) (pre rest : List ModelKey) (n : Nat)
    (hpre : ∀ mk' ∈ pre, payload_ok (call_openrouter_api_payload (cfg.model mk') cfg tm tv) = true) :
    process_models cfg tm tv (pre ++ rest) n = process_models cfg tm tv rest (n + pre.length) := by
  induction pre generalizing n with
  | nil => simp
  | cons mk t ih =>
      rw [List.cons_append]
      show (match call_openrouter_api_payload (cfg.model mk) cfg tm tv with
        | .error e => (n, some e)
        | .ok _ => process_models cfg tm tv (t ++ rest) (n + 1)) =
        process_models cfg tm tv rest (n + (mk :: t).length)
      cases hp : call_openrouter_api_payload (cfg.model mk) cfg tm tv with
      | error e =>
          have := hpre mk (List.mem_cons_self mk t)
          rw [hp] at this
          simp [payload_ok] at this
      | ok p =>
          rw [ih (n + 1) (fun mk' hmk' => hpre mk' (List.mem_cons_of_mem mk hmk'))]
          have harith : n + (mk :: t).length = n + 1 + t.length := by
            simp only [List.length_cons]
            omega
          rw [harith]

theorem process_models_error_head (cfg : Config) (tm : String → Option Int)
    (tv : String → Option String) (mk : ModelKey) (rest : List ModelKey) (n : Nat)
    (hfail : payload_ok (call_openrouter_api_payload (cfg.model mk) cfg tm tv) = false) :
    (process_models cfg tm tv (mk :: rest) n).1 = n ∧
    (process_models cfg tm tv (mk :: rest) n).2.isSome = true := by
  unfold process_models
  cases hp : call_openrouter_api_payload (cfg.model mk) cfg tm tv with
  | error e => exact ⟨rfl, rfl⟩
  | ok p => rw [hp] at hfail; simp [payload_ok] at hfail

/-- C3 (amended): when some enabled slot `mk` is bound to an effort-family
(`openai/`-prefixed) thinking model with a non-blank reasoning-effort value
outside its declared legal set, and every enabled slot before it builds its
payload without error, the run aborts with a configuration error raised before
`mk`'s network call; the number of network calls performed equals the number
of enabled slots preceding `mk` in the first batch — zero exactly when `mk` is
the first enabled slot. -/
theorem invalid_reasoning_effort_aborts_run (cfg : Config) (tm : String → Option Int)
    (tv : String → Option String) (nbatches : Nat) (mk : ModelKey)
    (pre post : List ModelKey)
    (hnb : 0 < nbatches)
    (henabled : enabled_model_keys cfg = pre ++ mk :: post)
    (hthink : tm (cfg.model mk) = some 1)
    (hopenai : py_startswith (cfg.model mk) "openai/" = true)
    (heffort : py_strip cfg.reasoning_effort_openai ≠ "")
    (hinvalid : effort_invalid_for cfg tv (cfg.model mk) = true)
    (hpre : ∀ mk' ∈ pre, payload_ok (call_openrouter_api_payload (cfg.model mk') cfg tm tv) = true) :
    (run_network_calls cfg tm tv nbatches).1 = pre.length ∧
    (run_network_calls cfg tm tv nbatches).2.isSome = true := by
  have hfail := payload_error_of_invalid_effort (cfg.model mk) cfg tm tv hthink hopenai heffort hinvalid
  obtain ⟨k, rfl⟩ : ∃ k, nbatches = k + 1 := ⟨nbatches - 1, by omega⟩
  unfold run_network_calls
  rw [List.range_succ_eq_map]
  have hsplit : ((0 :: (List.range k).map Nat.succ).flatMap (fun _ => enabled_model_keys cfg)) =
      pre ++ (mk :: (post ++ ((List.range k).map Nat.succ).flatMap (fun _ => enabled_model_keys cfg))) := by
    rw [List.flatMap_cons, henabled]
    simp
  rw [hsplit, process_models_ok_prefix cfg tm tv pre _ 0 hpre, Nat.zero_add]
  exact process_models_error_head cfg tm tv mk _ pre.length hfail

/-- A configuration with slot 1 (Claude, non-thinking) and slot 2 (GPT-5,
thinking) enabled and an out-of-set reasoning effort configured. -/
def cfg_c3 : Config where
  model_1 := "anthropic/claude-3-5-haiku-20241022"
  model_2 := "openai/gpt-5"
  model_3 := "google/gemini-2.0-flash-lite"
  model_1_tag := 1
  model_2_tag := 1
  model_3_tag := 0
  temperature := 3 / 10
  top_p := 9 / 10
  max_tokens := 2000
  batch_size := 5
  request_delay_seconds := 0
  thinking_budget_gemini := none
  reasoning_effort_openai := "extreme"

/-- T_COST `THINKING` column: only GPT-5 is a thinking model here. -/
def thinking_models_c3 : String → Option Int := fun s =>
  if s = "openai/gpt-5" then some 1 else none

/-- T_COST `THINKING_VALUES` column: the legal effort set of GPT-5. -/
def thinking_values_c3 : String → Option String := fun s =>
  if s = "openai/gpt-5" then some "minimal, low, medium, high" else none

/-- C3 counterexample: with Claude enabled in slot 1 and GPT-5 (whose legal
effort set is minimal/low/medium/high) configured with effort `"extreme"` in
slot 2, the run does abort with a configuration error — but only after slot
1's network call of batch 1 has been performed: one network call, not zero. -/
theorem invalid_effort_run_counterexample :
    (run_network_calls cfg_c3 thinking_models_c3 thinking_values_c3 3).2.isSome = true
    ∧ (run_network_calls cfg_c3 thinking_models_c3 thinking_values_c3 3).1 = 1
    ∧ (1 : Nat) ≠ 0 :=
  ⟨by decide, by decide, by decide⟩

/-- The C3 configuration with the offending GPT-5 slot as the only enabled slot. -/
def cfg_c3_first_slot : Config :=
  { cfg_c3 with model_1_tag := 0, model_2_tag := 1, model_3_tag := 0 }

/-- C3 witness: when the invalid-effort model is the first (and only) enabled
slot, the run aborts with zero network calls performed. -/
theorem invalid_reasoning_effort_aborts_run_witness :
    (run_network_calls cfg_c3_first_slot thinking_models_c3 thinking_values_c3 2).1 = 0
    ∧ (run_network_calls cfg_c3_first_slot thinking_models_c3 thinking_values_c3 2).2.isSome = true := by
  have h := invalid_reasoning_effort_aborts_run cfg_c3_first_slot thinking_models_c3
    thinking_values_c3 2 ModelKey.model_2 [] [] (by decide) (by decide) (by decide)
    (by decide) (by decide) (by decide)
    (by intro mk' hmk'; exact absurd hmk' (List.not_mem_nil mk'))
  exact ⟨h.1, h.2⟩

/-! ## Gemini thinking-budget handling (C4, lines 400-427) -/

/-- C4 (amended): for a budget-family (`google/`-prefixed) model marked as a
thinking model: a blank budget omits the `thinking_budget` parameter; a zero
budget omits it; a POSITIVE budget below the declared minimum (128 for a pro
variant, else 512) is raised to that minimum; a budget above the declared
maximum (32768 pro, else 24576) is capped to it; and a NEGATIVE budget is
passed through unclamped rather than raised to the minimum. -/
theorem gemini_thinking_budget_clamping (cfg : Config) (tm : String → Option Int)
    (tv : String → Option String) (name : String)
    (hthink : tm name = some 1) (hg : py_startswith name "google/" = true) :
    (cfg.thinking_budget_gemini = none →
      payload_thinking_budget (call_openrouter_api_payload name cfg tm tv) = some none)
    ∧ (cfg.thinking_budget_gemini = some 0 →
      payload_thinking_budget (call_openrouter_api_payload name cfg tm tv) = some none)
    ∧ (∀ b : Int, cfg.thinking_budget_gemini = some b → 0 < b → b < gemini_min_val name →
      payload_thinking_budget (call_openrouter_api_payload name cfg tm tv) =
        some (some (gemini_min_val name)))
    ∧ (∀ b : Int, cfg.thinking_budget_gemini = some b → gemini_max_val name < b →
      payload_thinking_budget (call_openrouter_api_payload name cfg tm tv) =
        some (some (gemini_max_val name)))
    ∧ (∀ b : Int, cfg.thinking_budget_gemini = some b → b < 0 →
      payload_thinking_budget (call_openrouter_api_payload name cfg tm tv) = some (some b)) := by
  refine ⟨?_, ?_, ?_, ?_, ?_⟩
  · intro h
    simp [call_openrouter_api_payload, payload_thinking_budget, hthink, hg, h]
  · intro h
    simp [call_openrouter_api_payload, payload_thinking_budget, hthink, hg, h]
  · intro b hb h0 hmin
    have hne : gemini_min_val name ≠ 0 := by
      unfold gemini_min_val
      by_cases hpro : contains_pro name = true <;> simp [hpro]
    simp [call_openrouter_api_payload, payload_thinking_budget, hthink, hg, hb, h0, hmin, hne]
  · intro b hb hmax
    have hnmin : ¬ b < gemini_min_val name := by
      unfold gemini_min_val
      unfold gemini_max_val at hmax
      by_cases hpro : contains_pro name = true <;> simp [hpro] at hmax ⊢ <;> omega
    have h0 : 0 < b := by
      have : 0 < gemini_max_val name := by
        unfold gemini_max_val
        by_cases hpro : contains_pro name = true <;> simp [hpro]
      omega
    have hne : gemini_max_val name ≠ 0 := by
      unfold gemini_max_val
      by_cases hpro : contains_pro name = true <;> simp [hpro]
    simp [call_openrouter_api_payload, payload_thinking_budget, hthink, hg, hb, h0,
      hnmin, hmax, hne]
  · intro b hb hneg
    have h0 : ¬ 0 < b := by omega
    have hne : b ≠ 0 := by omega
    simp [call_openrouter_api_payload, payload_thinking_budget, hthink, hg, hb, h0, hne]

/-- A configuration whose Gemini budget cell holds -1 (the provider's
"dynamic" setting). -/
def cfg_c4 : Config where
  model_1 := "anthropic/claude-3-5-haiku-20241022"
  model_2 := "openai/gpt-4o-mini"
  model_3 := "google/gemini-2.5-flash"
  model_1_tag := 0
  model_2_tag := 0
  model_3_tag := 1
  temperature := 3 / 10
  top_p := 9 / 10
  max_tokens := 2000
  batch_size := 5
  request_delay_seconds := 0
  thinking_budget_gemini := some (-1)
  reasoning_effort_openai := ""

/-- T_COST `THINKING` column for the C4 scenarios. -/
def thinking_models_c4 : String → Option Int := fun s =>
  if s = "google/gemini-2.5-flash" then some 1 else none

/-- T_COST `THINKING_VALUES` column for the C4 scenarios (budget family has none). -/
def thinking_values_c4 : String → Option String := fun _ => none

/-- C4 counterexample: a configured budget of -1 for `google/gemini-2.5-flash`
(non-pro, declared minimum 512) is below the minimum, yet it is neither raised
to the minimum nor omitted: the request carries `thinking_budget := -1`. -/
theorem gemini_negative_budget_counterexample :
    ((-1 : Int) < gemini_min_val "google/gemini-2.5-flash")
    ∧ payload_thinking_budget (call_openrouter_api_payload "google/gemini-2.5-flash" cfg_c4
        thinking_models_c4 thinking_values_c4) = some (some (-1))
    ∧ some (some (-1 : Int)) ≠ some (some (gemini_min_val "google/gemini-2.5-flash"))
    ∧ some (some (-1 : Int)) ≠ (some none : Option (Option Int)) :=
  ⟨by decide, by decide, by decide, by decide⟩

/-- The C4 configuration with a positive below-minimum budget of 100. -/
def cfg_c4_low : Config := { cfg_c4 with thinking_budget_gemini := some 100 }

/-- C4 witness: a positive budget of 100 on non-pro `google/gemini-2.5-flash`
is raised to the declared minimum 512. -/
theorem gemini_thinking_budget_clamping_witness :
    payload_thinking_budget (call_openrouter_api_payload "google/gemini-2.5-flash"
      cfg_c4_low thinking_models_c4 thinking_values_c4) = some (some 512) := by
  have h := (gemini_thinking_budget_clamping cfg_c4_low thinking_models_c4 thinking_values_c4
    "google/gemini-2.5-flash" (by decide) (by decide)).2.2.1 100 rfl (by decide) (by decide)
  rw [show gemini_min_val "google/gemini-2.5-flash" = 512 from by decide] at h
  exact h

/-- A concrete default-model configuration with slots 1 and 3 enabled and
batch size 2, used to instantiate the run-level theorems. -/
def sample_config : Config where
  model_1 := "anthropic/claude-3-5-haiku-20241022"
  model_2 := "openai/gpt-4o-mini"
  model_3 := "google/gemini-2.0-flash-lite"
  model_1_tag := 1
  model_2_tag := 0
  model_3_tag := 1
  temperature := 3 / 10
  top_p := 9 / 10
  max_tokens := 2000
  batch_size := 2
  request_delay_seconds := 0
  thinking_budget_gemini := none
  reasoning_effort_openai := ""

/-- A concrete response oracle: batch 1 answers items 10 and 30 (omitting 20),
batch 2 times out, for every slot. -/
def sample_responses : Nat → ModelKey → ModelResponse := fun i _ =>
  if i = 0 then
    ModelResponse.content
      [{ questionid := some 10, change_required := some 0, feedback := some [] },
       { questionid := some 30, change_required := some 1, feedback := some [] }]
  else ModelResponse.api_error "Timeout after 30s"

/-- C1 witness: a concrete 3-item run with batch size 2, slots 1 and 3 enabled;
item 20 (which the model response omits) still has exactly one verdict for
slot 3. -/
theorem run_assess_exactly_one_verdict_witness :
    (0 < sample_config.batch_size ∧ [10, 20, 30].Nodup ∧ 20 ∈ [10, 20, 30]
      ∧ sample_config.tag ModelKey.model_3 = 1)
    ∧ (run_assess [10, 20, 30] sample_config sample_responses).countP
        (fun e => e.1 == 20 && e.2.1 == ModelKey.model_3) = 1 := by
  constructor
  · exact ⟨by decide, by decide, by decide, by decide⟩
  · exact run_assess_exactly_one_verdict [10, 20, 30] sample_config sample_responses 20
      ModelKey.model_3 (by decide) (by decide) (by decide) (by decide)

/-- C2 witness: concrete evaluation at a range of 7 items with batch size 3. -/
theorem assess_questions_batches_partition_witness :
    (0 < 3
    ∧ (run_batches [1, 2, 3, 4, 5, 6, 7] 3).length = (7 + 3 - 1) / 3
    ∧ (run_batches [1, 2, 3, 4, 5, 6, 7] 3).flatten = [1, 2, 3, 4, 5, 6, 7]) := by
  have h := assess_questions_batches_partition [1, 2, 3, 4, 5, 6, 7] 3 (by decide)
  exact ⟨by decide, by simpa using h.1, h.2.2.2.2.1⟩

/-! ## Results rows and dashboard metrics (`assess_questions` lines 1278-1298,
`build_and_write_dashboard` lines 848-979)

One `API_METRICS` record exists per (batch, enabled model); `results_data`
receives, per item per enabled model, three labeled rows (`Original`,
`Rewrite`, `Issues`) all carrying that model's change-required value, followed
by one entirely empty separator row.  The dashboard filters rows by the short
model name (the separator's missing `Model` never matches) and divides the
counts by 3. -/

/-- One API_METRICS record, restricted to the fields the dashboard reads. -/
structure MetricsRow where
  model_key : ModelKey
  status : String
  input_tokens : Nat
  output_tokens : Nat
  reasoning_tokens : Nat
  latency_seconds : ℚ
deriving DecidableEq, Repr

/-- `metrics_df[metrics_df['Model_Key'] == model_key]` (line 922). -/
def model_metrics (rows : List MetricsRow) (mk : ModelKey) : List MetricsRow :=
  rows.filter (fun r => r.model_key == mk)

/-- `total_api_calls = len(model_metrics)` (line 925). -/
def total_api_calls (rows : List MetricsRow) (mk : ModelKey) : Nat :=
  (model_metrics rows mk).length

/-- `len(model_metrics[model_metrics['Status'] == 'SUCCESS'])` (line 956). -/
def successful_api_calls (rows : List MetricsRow) (mk : ModelKey) : Nat :=
  ((model_metrics rows mk).filter (fun r => r.status == "SUCCESS")).length

/-- `model_metrics['Input_Tokens'].sum()` (line 926). -/
def total_input_tokens (rows : List MetricsRow) (mk : ModelKey) : Nat :=
  ((model_metrics rows mk).map (fun r => r.input_tokens)).sum

/-- `model_metrics['Output_Tokens'].sum()` (line 927). -/
def total_output_tokens (rows : List MetricsRow) (mk : ModelKey) : Nat :=
  ((model_metrics rows mk).map (fun r => r.output_tokens)).sum

/-- `model_metrics['Reasoning_Tokens'].sum()` (line 928). -/
def total_reasoning_tokens (rows : List MetricsRow) (mk : ModelKey) : Nat :=
  ((model_metrics rows mk).map (fun r => r.reasoning_tokens)).sum

/-- `model_metrics['Latency_Seconds'].sum()` (line 941). -/
def total_time_seconds (rows : List MetricsRow) (mk : ModelKey) : ℚ :=
  ((model_metrics rows mk).map (fun r => r.latency_seconds)).sum

/-- `input_cost = (total_input_tokens / 1_000_000) * INPUT rate` (line 933). -/
def input_cost (rows : List MetricsRow) (mk : ModelKey) (input_rate : ℚ) : ℚ :=
  (total_input_tokens rows mk : ℚ) / 1000000 * input_rate

/-- `output_cost = (total_output_tokens / 1_000_000) * OUTPUT rate` (line 934). -/
def output_cost (rows : List MetricsRow) (mk : ModelKey) (output_rate : ℚ) : ℚ :=
  (total_output_tokens rows mk : ℚ) / 1000000 * output_rate

/-- `reasoning_cost = (total_reasoning_tokens / 1_000_000) * OUTPUT rate`
(line 935): reasoning is billed at the output rate. -/
def reasoning_cost (rows : List MetricsRow) (mk : ModelKey) (output_rate : ℚ) : ℚ :=
  (total_reasoning_tokens rows mk : ℚ) / 1000000 * output_rate

/-- `total_cost = input_cost + output_cost + reasoning_cost` (line 936). -/
def total_cost (rows : List MetricsRow) (mk : ModelKey) (input_rate output_rate : ℚ) : ℚ :=
  input_cost rows mk input_rate + output_cost rows mk output_rate
    + reasoning_cost rows mk output_rate

/-- `total_questions_processed = total_api_calls * batch_size` (line 943). -/
def total_questions_processed (rows : List MetricsRow) (mk : ModelKey) (batch_size : Nat) : Nat :=
  total_api_calls rows mk * batch_size

/-- `time_per_question_seconds` (line 944): total latency over
`total_api_calls * batch_size`, zero-guarded. -/
def time_per_question (rows : List MetricsRow) (mk : ModelKey) (batch_size : Nat) : ℚ :=
  if 0 < total_questions_processed rows mk batch_size then
    total_time_seconds rows mk / (total_questions_processed rows mk batch_size : ℚ)
  else 0

/-- `time_per_api_call_seconds` (line 945): total latency over total (not
successful) API calls, zero-guarded. -/
def time_per_api_call (rows : List MetricsRow) (mk : ModelKey) : ℚ :=
  if 0 < total_api_calls rows mk then
    total_time_seconds rows mk / (total_api_calls rows mk : ℚ)
  else 0

/-- One row of `results_data` (lines 1287-1298), restricted to the columns the
dashboard reads; the separator row `{}` has every field missing. -/
structure ResultRow where
  model : Option String
  questionid : Option Nat
  item : Option String
  change_required : Option Int
deriving DecidableEq, Repr

/-- `results_df[results_df['Model'] == display_model_name]` (line 923); the
separator rows' missing `Model` (pandas NaN) never equals a name. -/
def model_results (rows : List ResultRow) (display_name : String) : List ResultRow :=
  rows.filter (fun r => r.model == some display_name)

/-- `'Total Items': len(model_results) / 3` (line 957). -/
def dashboard_total_items (rows : List ResultRow) (display_name : String) : ℚ :=
  ((model_results rows display_name).length : ℚ) / 3

/-- `successful_items = model_results['Change Required?'].notna().sum() / 3`
(line 938). -/
def successful_items (rows : List ResultRow) (display_name : String) : ℚ :=
  (((model_results rows display_name).countP (fun r => r.change_required.isSome)) : ℚ) / 3

/-- `changes_recommended = (model_results['Change Required?'] == 1).sum() / 3`
(line 939). -/
def changes_recommended (rows : List ResultRow) (display_name : String) : ℚ :=
  (((model_results rows display_name).countP (fun r => r.change_required == some 1)) : ℚ) / 3

/-- `'Change Rate (%)': changes / successful if successful > 0 else 0` (line 961). -/
def change_rate (rows : List ResultRow) (display_name : String) : ℚ :=
  if 0 < successful_items rows display_name then
    changes_recommended rows display_name / successful_items rows display_name
  else 0

/-- C8: the per-model total cost equals input tokens / 1,000,000 × input rate
plus output tokens / 1,000,000 × output rate plus reasoning tokens / 1,000,000
× output rate — reasoning billed at the output rate — and, at summed tokens
input = 1,000,000, output = 500,000, reasoning = 0 with input rate 2.0 and
output rate 8.0, the cost is 6.0. -/
theorem dashboard_total_cost_formula :
    (∀ (rows : List MetricsRow) (mk : ModelKey) (input_rate output_rate : ℚ),
      total_cost rows mk input_rate output_rate =
        (total_input_tokens rows mk : ℚ) / 1000000 * input_rate
        + (total_output_tokens rows mk : ℚ) / 1000000 * output_rate
        + (total_reasoning_tokens rows mk : ℚ) / 1000000 * output_rate)
    ∧ total_cost [⟨ModelKey.model_1, "SUCCESS", 1000000, 500000, 0, 1⟩]
        ModelKey.model_1 2 8 = 6 := by
  constructor
  · intro rows mk input_rate output_rate
    rfl
  · show (1000000 : ℚ) / 1000000 * 2 + (500000 : ℚ) / 1000000 * 8
        + (0 : ℚ) / 1000000 * 8 = 6
    norm_num

/-- C9 counterexample: a single ERROR call with latency 10 yields zero
successful API calls (and zero successful items), yet the per-call time
average is 10 — the code divides by the total call count, not by the
successful count (which would give 0 under the claimed zero-division guard). -/
theorem time_average_not_by_successful_counterexample :
    time_per_api_call [⟨ModelKey.model_1, "ERROR", 0, 0, 0, 10⟩] ModelKey.model_1 = 10
    ∧ successful_api_calls [⟨ModelKey.model_1, "ERROR", 0, 0, 0, 10⟩] ModelKey.model_1 = 0
    ∧ (10 : ℚ) ≠ 0 := by
  refine ⟨?_, rfl, by norm_num⟩
  show (if 0 < total_api_calls [⟨ModelKey.model_1, "ERROR", 0, 0, 0, 10⟩] ModelKey.model_1
    then total_time_seconds [⟨ModelKey.model_1, "ERROR", 0, 0, 0, 10⟩] ModelKey.model_1 /
      (total_api_calls [⟨ModelKey.model_1, "ERROR", 0, 0, 0, 10⟩] ModelKey.model_1 : ℚ)
    else 0) = 10
  rw [if_pos (by decide)]
  show ((10 : ℚ) + 0) / ((1 : Nat) : ℚ) = 10
  norm_num

/-- C9 (amended): the per-item time average divides total latency by total API
calls × configured batch size and the per-call average divides by total API
calls (total counts, not successful counts), both guarding zero-division; the
change rate equals changes recommended divided by successful items and is zero
when there are no successful items, never a division by zero. -/
theorem dashboard_averages_and_change_rate (mrows : List MetricsRow) (mk : ModelKey)
    (batch_size : Nat) (rrows : List ResultRow) (display_name : String) :
    (total_api_calls mrows mk = 0 → time_per_api_call mrows mk = 0)
    ∧ (0 < total_api_calls mrows mk →
        time_per_api_call mrows mk = total_time_seconds mrows mk / (total_api_calls mrows mk : ℚ))
    ∧ (total_questions_processed mrows mk batch_size = 0 →
        time_per_question mrows mk batch_size = 0)
    ∧ (0 < total_questions_processed mrows mk batch_size →
        time_per_question mrows mk batch_size =
          total_time_seconds mrows mk / (total_questions_processed mrows mk batch_size : ℚ))
    ∧ (successful_items rrows display_name = 0 → change_rate rrows display_name = 0)
    ∧ (0 < successful_items rrows display_name →
        change_rate rrows display_name =
          changes_recommended rrows display_name / successful_items rrows display_name) := by
  refine ⟨?_, ?_, ?_, ?_, ?_, ?_⟩
  · intro h
    unfold time_per_api_call
    rw [if_neg (by omega)]
  · intro h
    unfold time_per_api_call
    rw [if_pos h]
  · intro h
    unfold time_per_question
    rw [if_neg (by omega)]
  · intro h
    unfold time_per_question
    rw [if_pos h]
  · intro h
    unfold change_rate
    rw [if_neg (by rw [h]; exact lt_irrefl 0)]
  · intro h
    unfold change_rate
    rw [if_pos h]

/-- C9 witness: the amended averages theorem instantiated at one SUCCESS call
of latency 4 with batch size 2 and one three-row result block. -/
theorem dashboard_averages_and_change_rate_witness :
    time_per_api_call [⟨ModelKey.model_1, "SUCCESS", 5, 5, 0, 4⟩] ModelKey.model_1 =
      total_time_seconds [⟨ModelKey.model_1, "SUCCESS", 5, 5, 0, 4⟩] ModelKey.model_1 /
        (total_api_calls [⟨ModelKey.model_1, "SUCCESS", 5, 5, 0, 4⟩] ModelKey.model_1 : ℚ)
    ∧ change_rate [] "haiku" = 0 := by
  constructor
  · exact (dashboard_averages_and_change_rate
      [⟨ModelKey.model_1, "SUCCESS", 5, 5, 0, 4⟩] ModelKey.model_1 2 [] "haiku").2.1
      (by decide)
  · exact (dashboard_averages_and_change_rate
      [⟨ModelKey.model_1, "SUCCESS", 5, 5, 0, 4⟩] ModelKey.model_1 2 [] "haiku").2.2.2.2.1
      (by norm_num [successful_items, model_results])

/-! ## Per-item results rows (C10, lines 1278-1298) -/

/-- `change_required_val = model_result.get('change_required')` (line 1284):
the parsed object's flag, `None` for any error verdict or missing object. -/
def change_required_val (batch_ids : List Nat) (q : Nat) (mk : ModelKey)
    (resp : ModelResponse) : Option Int :=
  match verdict_for batch_ids q mk resp with
  | some (.parsed obj) => obj.change_required
  | _ => none

/-- The four rows appended per item per enabled model (lines 1287-1298):
`Original`, `Rewrite`, `Issues` — all carrying the model's change-required
value — then the empty separator dict `{}`. -/
def item_model_rows (display_name : String) (q : Nat) (cr : Option Int) : List ResultRow :=
  [{ model := some display_name, questionid := some q, item := some "Original", change_required := cr },
   { model := some display_name, questionid := some q, item := some "Rewrite", change_required := cr },
   { model := some display_name, questionid := some q, item := some "Issues", change_required := cr },
   { model := none, questionid := none, item := none, change_required := none }]

/-- `results_data` of a whole run: for every batch in order, for every item of
the batch, for every enabled slot, the four rows of `item_model_rows` under
the slot's short display name. -/
def results_data (items : List Nat) (cfg : Config) (resp : Nat → ModelKey → ModelResponse) :
    List ResultRow :=
  (List.range (total_batches items.length cfg.batch_size)).flatMap (fun i =>
    (batch_slice items cfg.batch_size i).flatMap (fun q =>
      (enabled_model_keys cfg).flatMap (fun mk =>
        item_model_rows (get_short_model_name (cfg.model mk)) q
          (change_required_val (batch_slice items cfg.batch_size i) q mk (resp i mk)))))

theorem countP_item_model_rows (name name' : String) (q : Nat) (cr : Option Int) :
    (item_model_rows name' q cr).countP (fun r => r.model == some name) =
      if name' = name then 3 else 0 := by
  by_cases h : name' = name
  · subst h
    simp [item_model_rows]
  · simp [item_model_rows, h]

theorem sum_map_const_nat {α : Type _} (l : List α) (c : Nat) :
    (l.map (fun _ => c)).sum = l.length * c := by
  induction l with
  | nil => simp
  | cons a t ih =>
      rw [List.map_cons, List.sum_cons, ih, List.length_cons]
      ring

theorem countP_results_data (items : List Nat) (cfg : Config)
    (resp : Nat → ModelKey → ModelResponse) (mk : ModelKey)
    (hbs : 0 < cfg.batch_size) (hmk : cfg.tag mk = 1)
    (hname : ∀ mk' ∈ enabled_model_keys cfg,
      get_short_model_name (cfg.model mk') = get_short_model_name (cfg.model mk) → mk' = mk) :
    (results_data items cfg resp).countP
      (fun r => r.model == some (get_short_model_name (cfg.model mk))) = 3 * items.length := by
  have h2 : ∀ (q : Nat) (cr_src : ModelKey → Option Int),
      ((enabled_model_keys cfg).flatMap (fun mk' =>
        item_model_rows (get_short_model_name (cfg.model mk')) q (cr_src mk'))).countP
        (fun r => r.model == some (get_short_model_name (cfg.model mk))) = 3 := by
    intro q cr_src
    rw [List.countP_flatMap]
    have h3 : (enabled_model_keys cfg).map
        ((fun l => l.countP (fun r => r.model == some (get_short_model_name (cfg.model mk)))) ∘
          fun mk' => item_model_rows (get_short_model_name (cfg.model mk')) q (cr_src mk')) =
        (enabled_model_keys cfg).map (fun mk' => if mk' = mk then 3 else 0) := by
      apply List.map_congr_left
      intro mk' hmk'
      show (item_model_rows (get_short_model_name (cfg.model mk')) q (cr_src mk')).countP
        (fun r => r.model == some (get_short_model_name (cfg.model mk))) = _
      rw [countP_item_model_rows]
      by_cases heq : mk' = mk
      · subst heq
        rw [if_pos rfl, if_pos rfl]
      · rw [if_neg heq, if_neg (fun hc => heq (hname mk' hmk' hc))]
    rw [h3, sum_map_ite_eq_of_nodup _ mk _ (nodup_enabled_model_keys cfg)
      (mem_enabled_model_keys cfg mk hmk)]
  unfold results_data
  rw [List.countP_flatMap]
  have h1 : (List.range (total_batches items.length cfg.batch_size)).map
      ((fun l => l.countP (fun r => r.model == some (get_short_model_name (cfg.model mk)))) ∘
        fun i => (batch_slice items cfg.batch_size i).flatMap (fun q =>
          (enabled_model_keys cfg).flatMap (fun mk' =>
            item_model_rows (get_short_model_name (cfg.model mk')) q
              (change_required_val (batch_slice items cfg.batch_size i) q mk' (resp i mk'))))) =
      (List.range (total_batches items.length cfg.batch_size)).map
        (fun i => 3 * (batch_slice items cfg.batch_size i).length) := by
    apply List.map_congr_left
    intro i _
    show ((batch_slice items cfg.batch_size i).flatMap _).countP _ = _
    rw [List.countP_flatMap]
    have h4 : (batch_slice items cfg.batch_size i).map
        ((fun l => l.countP (fun r => r.model == some (get_short_model_name (cfg.model mk)))) ∘
          fun q => (enabled_model_keys cfg).flatMap (fun mk' =>
            item_model_rows (get_short_model_name (cfg.model mk')) q
              (change_required_val (batch_slice items cfg.batch_size i) q mk' (resp i mk')))) =
        (batch_slice items cfg.batch_size i).map (fun _ => 3) := by
      apply List.map_congr_left
      intro q _
      exact h2 q _
    rw [h4, sum_map_const_nat, Nat.mul_comm]
  rw [h1, List.sum_map_mul_left]
  have h6 : ((List.range (total_batches items.length cfg.batch_size)).map
      (fun i => (batch_slice items cfg.batch_size i).length)).sum = items.length := by
    have hs := sizes_sum_run_batches items cfg.batch_size hbs
    rw [run_batches, List.map_map] at hs
    exact hs
  rw [h6]

/-- C10: per processed item and enabled model slot, the run appends exactly
four rows — three labeled `Original`, `Rewrite`, `Issues`, each carrying that
model's change-required value, followed by one entirely empty separator row —
and the dashboard's per-model Total Items figure, obtained by filtering the
rows on the model's display name and dividing the count by 3, equals exactly
the number of requested items (so the item counts depend on this
3-labeled-rows-per-item layout). -/
theorem results_rows_and_dashboard_item_count (items : List Nat) (cfg : Config)
    (resp : Nat → ModelKey → ModelResponse) (mk : ModelKey)
    (hbs : 0 < cfg.batch_size) (hmk : cfg.tag mk = 1)
    (hname : ∀ mk' ∈ enabled_model_keys cfg,
      get_short_model_name (cfg.model mk') = get_short_model_name (cfg.model mk) → mk' = mk) :
    (∀ (name : String) (q : Nat) (cr : Option Int), item_model_rows name q cr =
      [{ model := some name, questionid := some q, item := some "Original", change_required := cr },
       { model := some name, questionid := some q, item := some "Rewrite", change_required := cr },
       { model := some name, questionid := some q, item := some "Issues", change_required := cr },
       { model := none, questionid := none, item := none, change_required := none }])
    ∧ (results_data items cfg resp).countP
        (fun r => r.model == some (get_short_model_name (cfg.model mk))) = 3 * items.length
    ∧ dashboard_total_items (results_data items cfg resp) (get_short_model_name (cfg.model mk))
        = (items.length : ℚ) := by
  refine ⟨fun name q cr => rfl, countP_results_data items cfg resp mk hbs hmk hname, ?_⟩
  unfold dashboard_total_items model_results
  rw [← List.countP_eq_length_filter, countP_results_data items cfg resp mk hbs hmk hname]
  push_cast
  ring

/-- A configuration with only slot 1 enabled and batch size 2, for the C10
witness. -/
def cfg_c10 : Config where
  model_1 := "anthropic/claude-3-5-haiku-20241022"
  model_2 := "openai/gpt-4o-mini"
  model_3 := "google/gemini-2.0-flash-lite"
  model_1_tag := 1
  model_2_tag := 0
  model_3_tag := 0
  temperature := 3 / 10
  top_p := 9 / 10
  max_tokens := 2000
  batch_size := 2
  request_delay_seconds := 0
  thinking_budget_gemini := none
  reasoning_effort_openai := ""

/-- C10 witness: a 3-item run with slot 1 enabled yields Total Items = 3 on
the dashboard, via the rows theorem. -/
theorem results_rows_and_dashboard_item_count_witness :
    dashboard_total_items
      (results_data [1, 2, 3] cfg_c10 (fun _ _ => ModelResponse.api_error "Timeout after 30s"))
      (get_short_model_name (cfg_c10.model ModelKey.model_1)) = (3 : ℚ) := by
  have h := (results_rows_and_dashboard_item_count [1, 2, 3] cfg_c10
    (fun _ _ => ModelResponse.api_error "Timeout after 30s") ModelKey.model_1
    (by decide) (by decide) (by decide)).2.2
  simpa using h

end QQ
